import Mathlib

/-!
Verification of the credential-injection proxy (`proxy/inject.py` and
`proxy/strategies/`).  The Python source is shallowly embedded: strings are
Lean `String`s (hosts and header values are ASCII in this code base, so
`Char.toLower` matches Python `str.lower`), mutable flow objects become
explicit record updates, and Python `raise` becomes an explicit outcome
value.  Regex dummy patterns are modelled for the configurations the claims
exercise, namely literal patterns, for which `re.search` is substring
search.
-/

namespace Cloak

/-- Python `str` substring test, `pat in s`, at the `List Char` level:
true iff `pat` occurs contiguously in `s`. -/
def listContains (s pat : List Char) : Bool :=
  match s with
  | [] => pat.isEmpty
  | _ :: rest => pat.isPrefixOf s || listContains rest pat

/-- Python `needle in hay` on strings. -/
def pyIn (needle hay : String) : Bool :=
  listContains hay.data needle.data

/-- Python `s.startswith(pre)`. -/
def pyStartsWith (s pre : String) : Bool :=
  pre.data.isPrefixOf s.data

/-- Python `s.endswith(suf)`. -/
def pyEndsWith (s suf : String) : Bool :=
  suf.data.isSuffixOf s.data

/-- Python slicing `s[n:]`. -/
def strDrop (s : String) (n : Nat) : String :=
  ⟨s.data.drop n⟩

/-- One step of Python `str.replace`, with fuel bounded by the length of the
subject string (each fuel step consumes at least one character of the
subject when the pattern is non-empty, as it is at every use site). -/
def listReplace : Nat → List Char → List Char → List Char → List Char
  | 0, s, _, _ => s
  | _ + 1, [], _, _ => []
  | n + 1, c :: rest, pat, rep =>
    if pat.isPrefixOf (c :: rest) then
      rep ++ listReplace n ((c :: rest).drop pat.length) pat rep
    else
      c :: listReplace n rest pat rep

/-- Python `s.replace(pat, rep)`: every non-overlapping occurrence,
left to right. -/
def pyReplace (s pat rep : String) : String :=
  ⟨listReplace s.data.length s.data pat.data rep.data⟩

/-- Python `s.lower()` (ASCII). -/
def pyLower (s : String) : String :=
  ⟨s.data.map Char.toLower⟩

/-- `InjectionStrategy.validate_host` from `proxy/strategies/base.py`.
The wildcard test is transcribed with Python's conditional-expression
precedence: `A or B if C else D` parses as `(A or B) if C else D`, so for
a pattern `*.d` whose remainder `d` does not start with a dot the whole
branch is just `host == d`. -/
def validate_host (host : String) (allowed_hosts : List String) : Bool :=
  allowed_hosts.any fun allowed =>
    pyLower host == pyLower allowed ||
      (pyStartsWith (pyLower allowed) "*." &&
        (if pyStartsWith (strDrop (pyLower allowed) 2) "." then
           pyEndsWith (pyLower host) (strDrop (pyLower allowed) 2) ||
             pyLower host == strDrop (strDrop (pyLower allowed) 2) 1
         else
           pyLower host == strDrop (pyLower allowed) 2))

/-- `UniversalCredentialInjector._is_host_whitelisted` from
`proxy/inject.py`: exact match, wildcard `*.d` (host equals `d` or ends in
`.d`), or bare-domain subdomain match (host ends in `.pattern`). -/
def isHostWhitelisted (allowed_hosts : List String) (host : String) : Bool :=
  allowed_hosts.any fun allowed =>
    pyLower host == pyLower allowed ||
      (pyStartsWith (pyLower allowed) "*." &&
        (pyEndsWith (pyLower host) ("." ++ strDrop (pyLower allowed) 2) ||
          pyLower host == strDrop (pyLower allowed) 2)) ||
      pyEndsWith (pyLower host) ("." ++ pyLower allowed)

/-- `UniversalCredentialInjector._is_telemetry_request`: Python substring
containment of each blocklist entry in the lower-cased host. -/
def isTelemetryRequest (blocklist : List String) (host : String) : Bool :=
  blocklist.any fun b => pyIn b (pyLower host)

/-- A synthesized response, `http.Response.make(status, body, {"Content-Type": ct})`. -/
structure Response where
  status : Nat
  body : String
  contentType : String
deriving DecidableEq, Repr

/-- The request half of a mitmproxy flow: `pretty_host`, case-insensitive
headers, case-sensitive query parameters, body content. -/
structure Request where
  method : String
  host : String
  headers : List (String × String)
  query : List (String × String)
  body : String
deriving DecidableEq, Repr

/-- A mitmproxy flow: mutable request plus a response slot. -/
structure Flow where
  request : Request
  response : Option Response
deriving DecidableEq, Repr

/-- mitmproxy `Headers` lookup is case-insensitive; returns the first value. -/
def headerGet : List (String × String) → String → Option String
  | [], _ => none
  | p :: rest, name =>
    if pyLower p.1 == pyLower name then some p.2 else headerGet rest name

/-- mitmproxy `name in headers`, case-insensitive. -/
def headerHas : List (String × String) → String → Bool
  | [], _ => false
  | p :: rest, name => (pyLower p.1 == pyLower name) || headerHas rest name

/-- mitmproxy `headers[name] = v`: overwrite in place if a matching name
exists (case-insensitively), otherwise append. -/
def headerSet (hs : List (String × String)) (name v : String) : List (String × String) :=
  if headerHas hs name then
    hs.map fun p => if pyLower p.1 == pyLower name then (p.1, v) else p
  else
    hs ++ [(name, v)]

/-- mitmproxy `del headers[name]` (a no-op when absent, matching the
guarded `if header in headers: del` call sites). -/
def headerDel (hs : List (String × String)) (name : String) : List (String × String) :=
  hs.filter fun p => !(pyLower p.1 == pyLower name)

/-- Query-parameter lookup (`flow.request.query[name]`), case-sensitive. -/
def queryGet : List (String × String) → String → Option String
  | [], _ => none
  | p :: rest, name => if p.1 == name then some p.2 else queryGet rest name

/-- `name in flow.request.query`. -/
def queryHas : List (String × String) → String → Bool
  | [], _ => false
  | p :: rest, name => (p.1 == name) || queryHas rest name

/-- `flow.request.query[name] = v`. -/
def querySet (q : List (String × String)) (name v : String) : List (String × String) :=
  if queryHas q name then
    q.map fun p => if p.1 == name then (p.1, v) else p
  else
    q ++ [(name, v)]

/-- One entry of `CredentialConfig.header_locations`: a header name and an
optional `format` template (`dict.get('format', '{token}')` at use site). -/
structure HeaderLoc where
  name : String
  format : Option String
deriving DecidableEq, Repr

/-- `CredentialConfig` from `proxy/inject.py`. -/
structure CredentialConfig where
  service_name : String
  display_name : String
  dummy_token : String
  env_var : String
  header_locations : List HeaderLoc
  query_param_names : List String
  allowed_hosts : List String
deriving DecidableEq, Repr

/-- The injector's statistics dictionary. -/
structure Stats where
  requests_processed : Nat
  credentials_injected : Nat
  requests_blocked : Nat
  telemetry_blocked : Nat
deriving DecidableEq, Repr

/-- The mutable state of `UniversalCredentialInjector` that the request
hook reads and writes. -/
structure Injector where
  credentials : List CredentialConfig
  telemetry_blocklist : List String
  stats : Stats
deriving Repr

/-- Python truthiness of `os.environ.get(...)`: `None` and `""` are falsy. -/
def envFalsy : Option String → Bool
  | none => true
  | some s => s.isEmpty

/-- Body of the `for header_config in cred.header_locations` loop of
`_inject_credential_in_headers`: walk the locations, skipping absent
headers and values without the dummy; on the first applicable location,
block (403), error (500) or inject, and stop. -/
def injectHeadersLoop (env : String → Option String) (cred : CredentialConfig)
    (locs : List HeaderLoc) (flow : Flow) (stats : Stats) : Flow × Stats × Bool :=
  match locs with
  | [] => (flow, stats, false)
  | loc :: rest =>
    match headerGet flow.request.headers loc.name with
    | none => injectHeadersLoop env cred rest flow stats
    | some header_value =>
      if !pyIn cred.dummy_token header_value then
        injectHeadersLoop env cred rest flow stats
      else if !isHostWhitelisted cred.allowed_hosts flow.request.host then
        let resp : Response :=
          ⟨403,
            "Forbidden: " ++ flow.request.host ++ " not whitelisted for " ++ cred.display_name,
            "text/plain"⟩
        ({ flow with response := some resp },
         { stats with requests_blocked := stats.requests_blocked + 1 }, false)
      else if envFalsy (env cred.env_var) then
        let resp : Response :=
          ⟨500, "Internal Error: " ++ cred.display_name ++ " not configured", "text/plain"⟩
        ({ flow with response := some resp }, stats, false)
      else
        let real := (env cred.env_var).getD ""
        let formatted := pyReplace (loc.format.getD "{token}") "{token}" real
        let newValue :=
          if header_value == cred.dummy_token then formatted
          else pyReplace header_value cred.dummy_token formatted
        ({ flow with request :=
            { flow.request with headers := headerSet flow.request.headers loc.name newValue } },
         { stats with credentials_injected := stats.credentials_injected + 1 }, true)

/-- `UniversalCredentialInjector._inject_credential_in_headers`. -/
def injectCredentialInHeaders (env : String → Option String) (cred : CredentialConfig)
    (flow : Flow) (stats : Stats) : Flow × Stats × Bool :=
  injectHeadersLoop env cred cred.header_locations flow stats

/-- Body of the `for param_name in cred.query_param_names` loop of
`_inject_credential_in_query_params`.  Note the 403 body here is the
constant `"Forbidden: Host not whitelisted"` and the replacement is the
raw credential (no format template). -/
def injectQueryLoop (env : String → Option String) (cred : CredentialConfig)
    (names : List String) (flow : Flow) (stats : Stats) : Flow × Stats × Bool :=
  match names with
  | [] => (flow, stats, false)
  | param :: rest =>
    match queryGet flow.request.query param with
    | none => injectQueryLoop env cred rest flow stats
    | some param_value =>
      if !pyIn cred.dummy_token param_value then
        injectQueryLoop env cred rest flow stats
      else if !isHostWhitelisted cred.allowed_hosts flow.request.host then
        let resp : Response := ⟨403, "Forbidden: Host not whitelisted", "text/plain"⟩
        ({ flow with response := some resp },
         { stats with requests_blocked := stats.requests_blocked + 1 }, false)
      else if envFalsy (env cred.env_var) then
        let resp : Response :=
          ⟨500, "Internal Error: " ++ cred.display_name ++ " not configured", "text/plain"⟩
        ({ flow with response := some resp }, stats, false)
      else
        let real := (env cred.env_var).getD ""
        let newValue := pyReplace param_value cred.dummy_token real
        ({ flow with request :=
            { flow.request with query := querySet flow.request.query param newValue } },
         { stats with credentials_injected := stats.credentials_injected + 1 }, true)

/-- `UniversalCredentialInjector._inject_credential_in_query_params`,
including the Python-truthiness guard `if not flow.request.query or not
cred.query_param_names: return False`. -/
def injectCredentialInQueryParams (env : String → Option String) (cred : CredentialConfig)
    (flow : Flow) (stats : Stats) : Flow × Stats × Bool :=
  if flow.request.query.isEmpty || cred.query_param_names.isEmpty then
    (flow, stats, false)
  else
    injectQueryLoop env cred cred.query_param_names flow stats

/-- The `for cred in self.credentials.values()` header pass of `request`:
the loop keeps going over the remaining credentials when an attempt
returns `False`, carrying along any response/stat mutations it made. -/
def headersPass (env : String → Option String) (creds : List CredentialConfig)
    (flow : Flow) (stats : Stats) : Flow × Stats × Bool :=
  match creds with
  | [] => (flow, stats, false)
  | c :: rest =>
    let r := injectCredentialInHeaders env c flow stats
    if r.2.2 then r else headersPass env rest r.1 r.2.1

/-- The query-parameter pass of `request`. -/
def queryPass (env : String → Option String) (creds : List CredentialConfig)
    (flow : Flow) (stats : Stats) : Flow × Stats × Bool :=
  match creds with
  | [] => (flow, stats, false)
  | c :: rest =>
    let r := injectCredentialInQueryParams env c flow stats
    if r.2.2 then r else queryPass env rest r.1 r.2.1

/-- `UniversalCredentialInjector.request`, the per-request dispatcher:
count the request, short-circuit telemetry hosts with a 418, then try the
header pass and the query pass. -/
def requestHandler (env : String → Option String) (inj : Injector) (flow : Flow) :
    Injector × Flow :=
  let stats := { inj.stats with requests_processed := inj.stats.requests_processed + 1 }
  if isTelemetryRequest inj.telemetry_blocklist flow.request.host then
    let resp : Response := ⟨418, "Telemetry blocked by SafeClaude proxy", "text/plain"⟩
    ({ inj with stats := { stats with telemetry_blocked := stats.telemetry_blocked + 1 } },
     { flow with response := some resp })
  else
    let r1 := headersPass env inj.credentials flow stats
    if r1.2.2 then ({ inj with stats := r1.2.1 }, r1.1)
    else
      let r2 := queryPass env inj.credentials r1.1 r1.2.1
      ({ inj with stats := r2.2.1 }, r2.1)

/-- Python `str.isupper()` on ASCII strings: at least one cased character
and no lowercase one. -/
def pyIsUpper (s : String) : Bool :=
  s.data.any (fun c => c.isUpper || c.isLower) && s.data.all (fun c => !c.isLower)

/-- The configuration dictionary handed to a strategy constructor; only
the keys the strategies read are modelled, each as `Option` to mirror
`dict.get`. -/
structure StratConfig where
  token : Option String := none
  api_key : Option String := none
  dummy_pattern : Option String := none
  allowed_hosts : Option (List String) := none
deriving DecidableEq, Repr

/-- `BearerStrategy._load_token` and `GeminiStrategy._load_api_key` share
this logic: a falsy value raises; an all-uppercase value containing an
underscore is resolved through the environment (raising when unset or
empty); anything else is a literal secret. -/
def loadToken (env : String → Option String) (value : Option String) :
    Except String String :=
  match value with
  | none => .error "token configuration required"
  | some tv =>
    if tv.isEmpty then .error "token configuration required"
    else if pyIsUpper tv && pyIn "_" tv then
      match env tv with
      | some ek => if ek.isEmpty then .error "environment variable not set" else .ok ek
      | none => .error "environment variable not set"
    else .ok tv

/-- The live `BearerStrategy` object (`proxy/strategies/bearer.py`). -/
structure BearerStrategy where
  name : String
  token : String
  dummyPattern : String
  allowedHosts : List String
deriving DecidableEq, Repr

/-- Default `dummy_pattern` of `BearerStrategy.__init__`. -/
def bearerDefaultPattern : String :=
  "(DUMMY_[A-Z0-9_]+|sk_test_00000000|ghp_[a-zA-Z0-9]{36}DUMMY)"

/-- `BearerStrategy.__init__`: load the token, default the dummy pattern,
and reject an absent or empty `allowed_hosts` list. -/
def bearerInit (env : String → Option String) (name : String) (cfg : StratConfig) :
    Except String BearerStrategy :=
  match loadToken env cfg.token with
  | .error e => .error e
  | .ok tok =>
    if (cfg.allowed_hosts.getD []).isEmpty then
      .error ("Bearer strategy " ++ name ++ " requires allowed_hosts configuration")
    else
      .ok ⟨name, tok, cfg.dummy_pattern.getD bearerDefaultPattern,
        cfg.allowed_hosts.getD []⟩

/-- The live `GeminiStrategy` object (`proxy/strategies/gemini.py`). -/
structure GeminiStrategy where
  name : String
  apiKey : String
  dummyPattern : String
  allowedHosts : List String
deriving DecidableEq, Repr

/-- Default `dummy_pattern` of `GeminiStrategy.__init__`. -/
def geminiDefaultPattern : String :=
  "(DUMMY_GEMINI_KEY|AIza[a-zA-Z0-9_-]{35}DUMMY)"

/-- `GeminiStrategy.__init__`: load the API key and default the dummy
pattern and allowed hosts.  There is no emptiness check on
`allowed_hosts`: an explicitly empty list is stored as-is. -/
def geminiInit (env : String → Option String) (name : String) (cfg : StratConfig) :
    Except String GeminiStrategy :=
  match loadToken env cfg.api_key with
  | .error e => .error e
  | .ok key =>
    .ok ⟨name, key,
      cfg.dummy_pattern.getD geminiDefaultPattern,
      cfg.allowed_hosts.getD ["generativelanguage.googleapis.com", "*.googleapis.com"]⟩

/-- `re.search(pattern, s)` for the literal (metacharacter-free) dummy
patterns the configurations in this development use: substring search. -/
def reSearch (pattern s : String) : Bool :=
  pyIn pattern s

/-- How a strategy `inject` terminates: normally, or by raising the
host-validation `ValueError` (`HostNotAllowed` in the spec's taxonomy). -/
inductive InjectOutcome
  | ok
  | hostNotAllowed
deriving DecidableEq, Repr

/-- `BearerStrategy.detect`: `Authorization` contains `Bearer` and the
dummy pattern matches. -/
def bearerDetect (s : BearerStrategy) (flow : Flow) : Bool :=
  pyIn "Bearer" ((headerGet flow.request.headers "Authorization").getD "") &&
    reSearch s.dummyPattern ((headerGet flow.request.headers "Authorization").getD "")

/-- `BearerStrategy.inject`: validate the host (raising on failure, which
happens before any mutation), then overwrite the whole `Authorization`
header with `Bearer <real token>` unconditionally. -/
def bearerInject (s : BearerStrategy) (flow : Flow) : Flow × InjectOutcome :=
  if !validate_host flow.request.host s.allowedHosts then
    (flow, .hostNotAllowed)
  else
    ({ flow with request := { flow.request with
        headers := headerSet flow.request.headers "Authorization" ("Bearer " ++ s.token) } },
     .ok)

/-- `GeminiStrategy.inject`: validate the host, then overwrite the whole
`x-goog-api-key` header when the dummy pattern matches it, otherwise
overwrite the whole `key` query parameter when the pattern matches there;
otherwise fall through with only a warning. -/
def geminiInject (s : GeminiStrategy) (flow : Flow) : Flow × InjectOutcome :=
  if !validate_host flow.request.host s.allowedHosts then
    (flow, .hostNotAllowed)
  else
    let hv := (headerGet flow.request.headers "x-goog-api-key").getD ""
    if !hv.isEmpty && reSearch s.dummyPattern hv then
      ({ flow with request := { flow.request with
          headers := headerSet flow.request.headers "x-goog-api-key" s.apiKey } },
       .ok)
    else if !flow.request.query.isEmpty && queryHas flow.request.query "key" then
      if reSearch s.dummyPattern ((queryGet flow.request.query "key").getD "") then
        ({ flow with request := { flow.request with
            query := querySet flow.request.query "key" s.apiKey } },
         .ok)
      else (flow, .ok)
    else (flow, .ok)

/-- The live `AWSSigV4Strategy` object (`proxy/strategies/aws_sigv4.py`). -/
structure AWSSigV4Strategy where
  name : String
  accessKeyId : String
  secretAccessKey : String
  sessionToken : Option String
  defaultRegion : String
  allowedHosts : List String

/-- `AWSSigV4Strategy._sanitize_aws_headers`: delete the four
AWS-sensitive headers (each deletion guarded by membership, which the
unconditional filter subsumes). -/
def sanitizeAwsHeaders (r : Request) : Request :=
  { r with headers :=
      headerDel (headerDel (headerDel (headerDel r.headers
        "Authorization") "X-Amz-Date") "X-Amz-Security-Token") "X-Amz-Signature" }

/-- `AWSSigV4Strategy._set_unsigned_payload`: for bodies over 1 MiB set
`X-Amz-Content-Sha256: UNSIGNED-PAYLOAD`. -/
def setUnsignedPayload (r : Request) : Request :=
  if r.body.length > 1024 * 1024 then
    { r with headers := headerSet r.headers "X-Amz-Content-Sha256" "UNSIGNED-PAYLOAD" }
  else r

/-- The header rewriting `AWSSigV4Strategy.inject` performs between host
authorization and SigV4 signing, given the service string derived by
`_extract_region` / `_extract_service` (those helpers are regex parsers
that do not mutate the flow). -/
def awsPreSign (service : String) (r : Request) : Request :=
  let r1 := sanitizeAwsHeaders r
  if service == "s3" && (r.method == "PUT" || r.method == "POST") then
    setUnsignedPayload r1
  else r1

/-- `AWSSigV4Strategy.inject` with the botocore SigV4 signer abstracted as
a request transformation applied after the pre-sign rewriting; the
host-validation failure raises before anything is touched. -/
def awsInject (sign : Request → Request) (s : AWSSigV4Strategy) (service : String)
    (flow : Flow) : Flow × InjectOutcome :=
  if !validate_host flow.request.host s.allowedHosts then
    (flow, .hostNotAllowed)
  else
    ({ flow with request := sign (awsPreSign service flow.request) }, .ok)

/-- A registered v2 strategy, tagged by protocol. -/
inductive Strategy
  | bearer (s : BearerStrategy)
  | gemini (s : GeminiStrategy)
  | aws (sign : Request → Request) (service : String) (s : AWSSigV4Strategy)

/-- The strategy's `allowed_hosts` attribute. -/
def Strategy.hosts : Strategy → List String
  | .bearer s => s.allowedHosts
  | .gemini s => s.allowedHosts
  | .aws _ _ s => s.allowedHosts

/-- The strategy's `name` attribute. -/
def Strategy.sname : Strategy → String
  | .bearer s => s.name
  | .gemini s => s.name
  | .aws _ _ s => s.name

/-- `strategy.inject(flow)` across the registered strategy kinds. -/
def strategyInject : Strategy → Flow → Flow × InjectOutcome
  | .bearer s, f => bearerInject s f
  | .gemini s, f => geminiInject s f
  | .aws sign service s, f => awsInject sign s service f

/-- Modelled from the spec: the v2 request dispatcher that calls
`strategy.inject` and converts typed failures into wire responses is not
under `src/` (only the strategies it drives and their tests are).  Per
§4.5 step 6 and §7 of the spec, on `HostNotAllowed` it writes a 403 with
the text body `Forbidden: <host> not whitelisted for <strategy-name>` and
leaves the request untouched. -/
def dispatchInject (st : Strategy) (flow : Flow) : Flow :=
  match strategyInject st flow with
  | (f, .ok) => f
  | (f, .hostNotAllowed) =>
    let resp : Response :=
      ⟨403, "Forbidden: " ++ f.request.host ++ " not whitelisted for " ++ st.sname,
        "text/plain"⟩
    { f with response := some resp }

/-- Componentwise ordering on the statistics bundle used to state
monotonicity: `requests_processed` is compared by equality because the
injection passes never touch it. -/
def StatsLe (s t : Stats) : Prop :=
  s.credentials_injected ≤ t.credentials_injected ∧
  s.requests_blocked ≤ t.requests_blocked ∧
  s.telemetry_blocked ≤ t.telemetry_blocked ∧
  s.requests_processed = t.requests_processed

/-- A credential whose allowlist is `a.com`, injecting into `Authorization`. -/
def credA : CredentialConfig :=
  { service_name := "aserv", display_name := "AService", dummy_token := "DUMMY_A",
    env_var := "ENV_A", header_locations := [⟨"Authorization", some "Bearer {token}"⟩],
    query_param_names := [], allowed_hosts := ["a.com"] }

/-- A credential whose allowlist is `b.com`, injecting into `X-B`. -/
def credB : CredentialConfig :=
  { service_name := "bserv", display_name := "BService", dummy_token := "DUMMY_B",
    env_var := "ENV_B", header_locations := [⟨"X-B", none⟩],
    query_param_names := [], allowed_hosts := ["b.com"] }

/-- An environment holding real secrets for both test credentials. -/
def envAB : String → Option String := fun v =>
  if v == "ENV_A" then some "realA" else if v == "ENV_B" then some "realB" else none

/-- An injector configured with the two test credentials and no telemetry
blocklist, counters at zero. -/
def injAB : Injector :=
  { credentials := [credA, credB], telemetry_blocklist := [], stats := ⟨0, 0, 0, 0⟩ }

/-- A request to `b.com` carrying both dummies: `credA`'s dummy in a host
not allowed for it, `credB`'s dummy in a host allowed for it. -/
def flowAB : Flow :=
  { request :=
      { method := "GET", host := "b.com",
        headers := [("Authorization", "Bearer DUMMY_A"), ("X-B", "DUMMY_B")],
        query := [], body := "" },
    response := none }

/-- An empty environment. -/
def envNone : String → Option String := fun _ => none

/-- An injector whose telemetry blocklist is exactly `sentry.io`. -/
def injTel : Injector :=
  { credentials := [], telemetry_blocklist := ["sentry.io"], stats := ⟨0, 0, 0, 0⟩ }

/-- A request to `mysentry.io`: not `sentry.io` and not a subdomain of it,
but containing it as a substring. -/
def flowTel : Flow :=
  { request :=
      { method := "GET", host := "mysentry.io", headers := [], query := [], body := "" },
    response := none }

/-- A bearer strategy allowing only `api.example.com`. -/
def bearS : BearerStrategy :=
  { name := "bear", token := "realtok", dummyPattern := "DUMMY_X",
    allowedHosts := ["api.example.com"] }

/-- A request to a host outside `bearS`'s allowlist. -/
def evilFlow : Flow :=
  { request :=
      { method := "GET", host := "evil.com",
        headers := [("Authorization", "Bearer DUMMY_X")], query := [], body := "" },
    response := none }

/-- A request to `bearS`'s allowed host that carries no dummy credential
at all. -/
def cleanFlow : Flow :=
  { request :=
      { method := "GET", host := "api.example.com",
        headers := [("Accept", "application/json")], query := [], body := "" },
    response := none }

/-- A Gemini strategy with a literal dummy pattern. -/
def gemS : GeminiStrategy :=
  { name := "gem", apiKey := "REALKEY", dummyPattern := "DUMMY_GEMINI_KEY",
    allowedHosts := ["generativelanguage.googleapis.com"] }

/-- A request whose `x-goog-api-key` header holds the Gemini dummy as a
proper substring of a larger value. -/
def gemFlow : Flow :=
  { request :=
      { method := "POST", host := "generativelanguage.googleapis.com",
        headers := [("x-goog-api-key", "pre DUMMY_GEMINI_KEY post")], query := [],
        body := "" },
    response := none }

/-- A body one byte past the 1 MiB threshold of the S3 unsigned-payload
optimization. -/
def bigBody : String :=
  ⟨List.replicate (1024 * 1024 + 1) 'a'⟩

/-- An S3 PUT carrying a dummy SigV4 authorization and the big body. -/
def bigReq : Request :=
  { method := "PUT", host := "s3.us-west-2.amazonaws.com",
    headers := [("Authorization", "AWS4-HMAC-SHA256 Credential=AKIA00000000DUMMYKEY/x"),
                ("X-Amz-Date", "20240101T000000Z"),
                ("Content-Type", "application/octet-stream")],
    query := [], body := bigBody }

end Cloak

namespace Cloak

/-- If no entry of `hs` matches `n` case-insensitively, looking `n` up
after appending `(n, v)` finds `v`. -/
theorem headerGet_append_single (hs : List (String × String)) (n v : String)
    (h : headerHas hs n = false) : headerGet (hs ++ [(n, v)]) n = some v := by
  induction hs with
  | nil => simp [headerGet]
  | cons p rest ih =>
    cases hp : (pyLower p.1 == pyLower n) with
    | true => simp [headerHas, hp] at h
    | false =>
      simp only [headerHas, hp, Bool.false_or] at h
      simpa [headerGet, hp] using ih h

/-- If some entry of `hs` matches `n`, looking `n` up after the in-place
overwrite of `headerSet` finds the new value. -/
theorem headerGet_overwrite (hs : List (String × String)) (n v : String)
    (h : headerHas hs n = true) :
    headerGet (hs.map fun p => if pyLower p.1 == pyLower n then (p.1, v) else p) n
      = some v := by
  induction hs with
  | nil => simp [headerHas] at h
  | cons p rest ih =>
    cases hp : (pyLower p.1 == pyLower n) with
    | true => simp [headerGet, hp]
    | false =>
      simp only [headerHas, hp, Bool.false_or] at h
      simpa [headerGet, hp] using ih h

/-- `headers[n] = v` then lookup of `n` yields `v`. -/
theorem headerGet_headerSet (hs : List (String × String)) (n v : String) :
    headerGet (headerSet hs n v) n = some v := by
  cases h : headerHas hs n with
  | true => rw [headerSet, if_pos h]; exact headerGet_overwrite hs n v h
  | false =>
    rw [headerSet, if_neg (by simp [h])]
    exact headerGet_append_single hs n v h

/-- Appending an `n`-keyed entry does not change the lookup of a
differently-named header. -/
theorem headerGet_append_ne (hs : List (String × String)) (n v m : String)
    (hnm : (pyLower n == pyLower m) = false) :
    headerGet (hs ++ [(n, v)]) m = headerGet hs m := by
  induction hs with
  | nil => simp [headerGet, hnm]
  | cons p rest ih =>
    cases hp : (pyLower p.1 == pyLower m) with
    | true => simp [headerGet, hp]
    | false => simpa [headerGet, hp] using ih

/-- Overwriting the values of `n`-keyed entries does not change the
lookup of a differently-named header. -/
theorem headerGet_overwrite_ne (hs : List (String × String)) (n v m : String)
    (hnm : (pyLower n == pyLower m) = false) :
    headerGet (hs.map fun p => if pyLower p.1 == pyLower n then (p.1, v) else p) m
      = headerGet hs m := by
  induction hs with
  | nil => simp [headerGet]
  | cons p rest ih =>
    cases hp : (pyLower p.1 == pyLower m) with
    | true =>
      have hpn : (pyLower p.1 == pyLower n) = false := by
        cases hpn : (pyLower p.1 == pyLower n) with
        | false => rfl
        | true =>
          rw [eq_of_beq hpn] at hp
          rw [hp] at hnm
          cases hnm
      simp [headerGet, hp, hpn]
    | false =>
      cases hpn : (pyLower p.1 == pyLower n) with
      | true => simpa [headerGet, hp, hpn] using ih
      | false => simpa [headerGet, hp, hpn] using ih

/-- `headers[n] = v` leaves the lookup of a differently-named header
unchanged. -/
theorem headerGet_headerSet_ne (hs : List (String × String)) (n v m : String)
    (hnm : (pyLower n == pyLower m) = false) :
    headerGet (headerSet hs n v) m = headerGet hs m := by
  rw [headerSet]
  cases h : headerHas hs n with
  | true =>
    rw [if_pos rfl]
    exact headerGet_overwrite_ne hs n v m hnm
  | false =>
    rw [if_neg (by simp)]
    exact headerGet_append_ne hs n v m hnm

/-- After `del headers[n]`, looking up `n` yields nothing. -/
theorem headerGet_headerDel_self (hs : List (String × String)) (n : String) :
    headerGet (headerDel hs n) n = none := by
  induction hs with
  | nil => simp [headerDel, headerGet]
  | cons p rest ih =>
    cases hp : (pyLower p.1 == pyLower n) with
    | true => simpa [headerDel, hp] using ih
    | false => simpa [headerDel, headerGet, hp] using ih

/-- `del headers[n]` leaves the lookup of a differently-named header
unchanged. -/
theorem headerGet_headerDel_ne (hs : List (String × String)) (n m : String)
    (hnm : (pyLower n == pyLower m) = false) :
    headerGet (headerDel hs n) m = headerGet hs m := by
  induction hs with
  | nil => simp [headerDel]
  | cons p rest ih =>
    cases hp : (pyLower p.1 == pyLower m) with
    | true =>
      have hpn : (pyLower p.1 == pyLower n) = false := by
        cases hpn : (pyLower p.1 == pyLower n) with
        | false => rfl
        | true =>
          rw [eq_of_beq hpn] at hp
          rw [hp] at hnm
          cases hnm
      simp [headerDel, headerGet, hp, hpn]
    | false =>
      cases hpn : (pyLower p.1 == pyLower n) with
      | true => simpa [headerDel, headerGet, hp, hpn] using ih
      | false => simpa [headerDel, headerGet, hp, hpn] using ih

/-- Claim C1 (code bug): `_is_host_whitelisted` allows `*.amazonaws.com`
hosts per the wildcard rule, but `validate_host` rejects the very hosts
the repo's own unit tests assert are allowed — its wildcard branch
degenerates to `host == "amazonaws.com"` through the misparenthesized
conditional expression, so `AAA.AMAZONAWS.COM` and `s3.amazonaws.com` are
denied. -/
theorem validate_host_wildcard_divergence :
    validate_host "s3.amazonaws.com" ["*.amazonaws.com"] = false ∧
    validate_host "AAA.AMAZONAWS.COM" ["*.amazonaws.com"] = false ∧
    isHostWhitelisted ["*.amazonaws.com"] "AAA.AMAZONAWS.COM" = true ∧
    validate_host "amazonaws.com" ["*.amazonaws.com"] = true := by
  decide

/-- Claim C2: when a strategy's `inject` is called on a flow whose host
fails the strategy's allowlist check, every strategy raises before
touching the flow, and the dispatcher (modelled from the spec, which is
the sole converter of failures to wire responses) synthesizes a 403 while
the request — headers, query parameters and body — is left unchanged, so
no real secret is written into the flow. -/
theorem C2_unauthorized_host_frame (st : Strategy) (flow : Flow)
    (h : validate_host flow.request.host st.hosts = false) :
    (dispatchInject st flow).request = flow.request ∧
    (dispatchInject st flow).response =
      some ⟨403,
        "Forbidden: " ++ flow.request.host ++ " not whitelisted for " ++ st.sname,
        "text/plain"⟩ := by
  cases st with
  | bearer s =>
    simp only [Strategy.hosts] at h
    simp [dispatchInject, strategyInject, bearerInject, h]
  | gemini s =>
    simp only [Strategy.hosts] at h
    simp [dispatchInject, strategyInject, geminiInject, h]
  | aws sign service s =>
    simp only [Strategy.hosts] at h
    simp [dispatchInject, strategyInject, awsInject, h]

/-- Claim C2 witness: a bearer dummy aimed at `evil.com` is refused and
answered with the 403. -/
theorem C2_unauthorized_host_frame_witness :
    (dispatchInject (.bearer bearS) evilFlow).request = evilFlow.request ∧
    (dispatchInject (.bearer bearS) evilFlow).response =
      some ⟨403, "Forbidden: evil.com not whitelisted for bear", "text/plain"⟩ := by
  have h := C2_unauthorized_host_frame (.bearer bearS) evilFlow (by decide)
  refine ⟨h.1, ?_⟩
  rw [h.2]
  decide

/-- Claim C3 counterexample: the claim covers both host-authorization
implementations, but bare-domain subdomain matching is absent from
`validate_host`: `api.openai.com` is denied there for pattern
`openai.com`, although the bare-domain rule requires it to be allowed
(as `_is_host_whitelisted` indeed does). -/
theorem C3_bare_domain_counterexample :
    validate_host "api.openai.com" ["openai.com"] = false ∧
    isHostWhitelisted ["openai.com"] "api.openai.com" = true := by
  decide

/-- Claim C3 (amended): `_is_host_whitelisted` implements the bare-domain
rule — a non-wildcard pattern allows exactly the hosts equal to it or
ending in `.` followed by it, case-folded — while `validate_host` matches
a non-wildcard pattern only exactly; the stated edge cases hold for both
implementations, and an empty allowlist denies every host. -/
theorem C3_bare_domain_amended :
    (∀ p h, pyStartsWith (pyLower p) "*." = false →
      isHostWhitelisted [p] h =
        (pyLower h == pyLower p || pyEndsWith (pyLower h) ("." ++ pyLower p))) ∧
    (∀ p h, pyStartsWith (pyLower p) "*." = false →
      validate_host h [p] = (pyLower h == pyLower p)) ∧
    isHostWhitelisted ["openai.com"] "api.openai.com.evil.com" = false ∧
    isHostWhitelisted ["openai.com"] "openai.com" = true ∧
    validate_host "api.openai.com.evil.com" ["openai.com"] = false ∧
    validate_host "openai.com" ["openai.com"] = true ∧
    (∀ h, isHostWhitelisted [] h = false) ∧
    (∀ h, validate_host h [] = false) := by
  refine ⟨?_, ?_, by decide, by decide, by decide, by decide, ?_, ?_⟩
  · intro p h hp
    simp [isHostWhitelisted, hp]
  · intro p h hp
    simp [validate_host, hp]
  · intro h
    simp [isHostWhitelisted]
  · intro h
    simp [validate_host]

/-- Claim C3 witness: the bare-domain characterization instantiated at
pattern `openai.com` and host `chat.openai.com`. -/
theorem C3_bare_domain_amended_witness :
    isHostWhitelisted ["openai.com"] "chat.openai.com" =
      (pyLower "chat.openai.com" == pyLower "openai.com" ||
        pyEndsWith (pyLower "chat.openai.com") ("." ++ pyLower "openai.com")) :=
  C3_bare_domain_amended.1 "openai.com" "chat.openai.com" (by decide)

/-- Claim C4 counterexample: after blocking `credA` with a 403 the v1
dispatcher does not return — it keeps iterating, and `credB` is still
evaluated and injected on the very same request, so a real secret lands
in the flow alongside the 403. -/
theorem C4_block_continues_counterexample :
    (requestHandler envAB injAB flowAB).2.response.map Response.status = some 403 ∧
    headerGet (requestHandler envAB injAB flowAB).2.request.headers "X-B" =
      some "realB" ∧
    (requestHandler envAB injAB flowAB).1.stats.requests_blocked = 1 ∧
    (requestHandler envAB injAB flowAB).1.stats.credentials_injected = 1 := by
  decide

/-- Claim C4 (amended): when a credential's dummy is found at a header
location and the host fails the allowlist, the header path writes a text
403 with body `Forbidden: <host> not whitelisted for <display-name>` and
increments `requests_blocked`; the query path writes the constant body
`Forbidden: Host not whitelisted`; in both cases the attempt reports
failure (`false`) so the dispatcher continues with the remaining
credentials instead of returning. -/
theorem C4_blocked_403_amended :
    (∀ (env : String → Option String) (cred : CredentialConfig) (flow : Flow)
        (stats : Stats) (loc : HeaderLoc) (value : String),
      cred.header_locations = [loc] →
      headerGet flow.request.headers loc.name = some value →
      pyIn cred.dummy_token value = true →
      isHostWhitelisted cred.allowed_hosts flow.request.host = false →
      injectCredentialInHeaders env cred flow stats =
        ({ flow with response := some ⟨403, "Forbidden: " ++ flow.request.host ++ " not whitelisted for " ++ cred.display_name, "text/plain"⟩ },
         { stats with requests_blocked := stats.requests_blocked + 1 }, false)) ∧
    (∀ (env : String → Option String) (cred : CredentialConfig) (flow : Flow)
        (stats : Stats) (param value : String),
      cred.query_param_names = [param] →
      flow.request.query.isEmpty = false →
      queryGet flow.request.query param = some value →
      pyIn cred.dummy_token value = true →
      isHostWhitelisted cred.allowed_hosts flow.request.host = false →
      injectCredentialInQueryParams env cred flow stats =
        ({ flow with response := some ⟨403, "Forbidden: Host not whitelisted", "text/plain"⟩ },
         { stats with requests_blocked := stats.requests_blocked + 1 }, false)) := by
  constructor
  · intro env cred flow stats loc value hlocs hget hdum hwl
    simp only [injectCredentialInHeaders, hlocs, injectHeadersLoop, hget, hdum, hwl]
    simp
  · intro env cred flow stats param value hnames hq hget hdum hwl
    simp only [injectCredentialInQueryParams, hnames, hq, List.isEmpty_cons,
      Bool.or_false, injectQueryLoop, hget, hdum, hwl]
    simp

/-- Claim C4 witness: `credA`'s dummy aimed at `b.com` produces the 403
with `AService`'s display name and one blocked count, and returns
`false`. -/
theorem C4_blocked_403_amended_witness :
    injectCredentialInHeaders envAB credA flowAB ⟨0, 0, 0, 0⟩ =
      ({ flowAB with response := some ⟨403, "Forbidden: b.com not whitelisted for AService", "text/plain"⟩ },
       ⟨0, 0, 1, 0⟩, false) := by
  have h := C4_blocked_403_amended.1 envAB credA flowAB ⟨0, 0, 0, 0⟩
    ⟨"Authorization", some "Bearer {token}"⟩ "Bearer DUMMY_A"
    (by decide) (by decide) (by decide) (by decide)
  rw [h]
  decide

/-- Claim C5 counterexample: `mysentry.io` is neither `sentry.io` nor one
of its subdomains, yet the telemetry block fires (substring matching),
and the synthesized body is `Telemetry blocked by SafeClaude proxy`, not
`Telemetry blocked`. -/
theorem C5_substring_telemetry_counterexample :
    (requestHandler envNone injTel flowTel).2.response =
      some ⟨418, "Telemetry blocked by SafeClaude proxy", "text/plain"⟩ ∧
    (pyLower "mysentry.io" == pyLower "sentry.io") = false ∧
    pyEndsWith (pyLower "mysentry.io") ("." ++ pyLower "sentry.io") = false := by
  decide

/-- Claim C5 (amended): a request is short-circuited by the telemetry
block iff some blocklist entry occurs as a substring of the case-folded
host; when it fires, the response is a 418 with body `Telemetry blocked
by SafeClaude proxy` and content-type `text/plain`, `telemetry_blocked`
is incremented, the request is untouched, and no credential injection or
blocking happens. -/
theorem C5_telemetry_amended :
    (∀ (bl : List String) (h : String),
      isTelemetryRequest bl h = true ↔ ∃ b ∈ bl, pyIn b (pyLower h) = true) ∧
    (∀ (env : String → Option String) (inj : Injector) (flow : Flow),
      isTelemetryRequest inj.telemetry_blocklist flow.request.host = true →
      (requestHandler env inj flow).2.response =
        some ⟨418, "Telemetry blocked by SafeClaude proxy", "text/plain"⟩ ∧
      (requestHandler env inj flow).2.request = flow.request ∧
      (requestHandler env inj flow).1.stats.telemetry_blocked =
        inj.stats.telemetry_blocked + 1 ∧
      (requestHandler env inj flow).1.stats.credentials_injected =
        inj.stats.credentials_injected ∧
      (requestHandler env inj flow).1.stats.requests_blocked =
        inj.stats.requests_blocked) := by
  constructor
  · intro bl h
    simp [isTelemetryRequest, List.any_eq_true]
  · intro env inj flow ht
    simp [requestHandler, ht]

/-- Claim C5 witness: the telemetry branch instantiated on the
`sentry.io` blocklist. -/
theorem C5_telemetry_amended_witness :
    (requestHandler envNone injTel flowTel).1.stats.telemetry_blocked = 1 := by
  have h := C5_telemetry_amended.2 envNone injTel flowTel (by decide)
  rw [h.2.2.1]
  decide

/-- Claim C6 counterexample: `GeminiStrategy.__init__` accepts a config
whose `allowed_hosts` is explicitly the empty list — construction
succeeds and stores the empty allowlist, so not every secret-injecting
strategy is rejected at load time. -/
theorem C6_gemini_empty_allowlist_counterexample :
    geminiInit envNone "gem"
        { api_key := some "literal-key-value", allowed_hosts := some [] } =
      .ok ⟨"gem", "literal-key-value", geminiDefaultPattern, []⟩ := by
  rfl

/-- Claim C6 (amended): only `BearerStrategy` (and its Stripe, GitHub and
OpenAI subclasses) rejects an absent or empty `allowed_hosts` at
construction — any bearer strategy that loads has a non-empty allowlist;
`GeminiStrategy` (and `AWSSigV4Strategy`) accept an explicitly empty
list, in which case every host is denied at request time instead. -/
theorem C6_bearer_nonempty_amended :
    ∀ (env : String → Option String) (name : String) (cfg : StratConfig)
      (s : BearerStrategy),
      bearerInit env name cfg = .ok s → s.allowedHosts ≠ [] := by
  intro env name cfg s h
  unfold bearerInit at h
  cases htok : loadToken env cfg.token with
  | error e => rw [htok] at h; cases h
  | ok tok =>
    rw [htok] at h
    dsimp only at h
    by_cases hemp : ((cfg.allowed_hosts.getD []).isEmpty = true)
    · rw [if_pos hemp] at h
      cases h
    · rw [if_neg hemp] at h
      injection h with h2
      rw [← h2]
      intro hnil
      dsimp only at hnil
      exact hemp (by rw [hnil]; rfl)

/-- Claim C6 witness: a bearer strategy that did construct indeed has a
non-empty allowlist. -/
theorem C6_bearer_nonempty_amended_witness :
    (⟨"bear2", "tok-value", bearerDefaultPattern, ["api.example.com"]⟩ :
        BearerStrategy).allowedHosts ≠ [] := by
  apply C6_bearer_nonempty_amended envNone "bear2"
    { token := some "tok-value", allowed_hosts := some ["api.example.com"] }
  rfl

/-- Claim C8 counterexample: the Gemini dummy occurs as a proper
substring of the `x-goog-api-key` value, but `GeminiStrategy.inject`
overwrites the entire value with the real key — the surrounding parts
are destroyed instead of preserved. -/
theorem C8_gemini_whole_value_counterexample :
    headerGet (geminiInject gemS gemFlow).1.request.headers "x-goog-api-key" =
      some "REALKEY" ∧
    pyReplace "pre DUMMY_GEMINI_KEY post" "DUMMY_GEMINI_KEY" "REALKEY" =
      "pre REALKEY post" ∧
    ("REALKEY" : String) ≠ "pre REALKEY post" := by
  refine ⟨by decide, by decide, by decide⟩

/-- Claim C8 (amended): the v1 header injection preserves the substring
versus whole-value distinction — an exact-match value is replaced by the
template-formatted token and a larger value has only the dummy substring
replaced, the rest preserved — but `GeminiStrategy.inject` (like
`BearerStrategy.inject`) overwrites the whole header value with the real
key even when the dummy is a proper substring. -/
theorem C8_substring_replacement_amended :
    (∀ (env : String → Option String) (cred : CredentialConfig) (flow : Flow)
        (stats : Stats) (loc : HeaderLoc) (value real : String),
      cred.header_locations = [loc] →
      headerGet flow.request.headers loc.name = some value →
      pyIn cred.dummy_token value = true →
      isHostWhitelisted cred.allowed_hosts flow.request.host = true →
      env cred.env_var = some real →
      real.isEmpty = false →
      headerGet (injectCredentialInHeaders env cred flow stats).1.request.headers
          loc.name =
        some (if value == cred.dummy_token
          then pyReplace (loc.format.getD "{token}") "{token}" real
          else pyReplace value cred.dummy_token
            (pyReplace (loc.format.getD "{token}") "{token}" real))) ∧
    (∀ (s : GeminiStrategy) (flow : Flow) (v : String),
      validate_host flow.request.host s.allowedHosts = true →
      headerGet flow.request.headers "x-goog-api-key" = some v →
      v.isEmpty = false →
      reSearch s.dummyPattern v = true →
      headerGet (geminiInject s flow).1.request.headers "x-goog-api-key" =
        some s.apiKey) := by
  constructor
  · intro env cred flow stats loc value real hlocs hget hdum hwl henv hre
    have hf : envFalsy (env cred.env_var) = false := by
      rw [henv]
      simpa [envFalsy] using hre
    have hd : (env cred.env_var).getD "" = real := by rw [henv]; rfl
    simp only [injectCredentialInHeaders, hlocs, injectHeadersLoop, hget, hdum, hwl, hf,
      hd]
    simp [headerGet_headerSet]
  · intro s flow v hval hget hne hsearch
    have hv : (headerGet flow.request.headers "x-goog-api-key").getD "" = v := by
      rw [hget]
      rfl
    simp only [geminiInject, hval, hv, hne, hsearch]
    simp [headerGet_headerSet]

/-- Claim C8 witness: the Gemini whole-value overwrite applied to the
substring-carrying request. -/
theorem C8_substring_replacement_amended_witness :
    headerGet (geminiInject gemS gemFlow).1.request.headers "x-goog-api-key" =
      some gemS.apiKey :=
  C8_substring_replacement_amended.2 gemS gemFlow "pre DUMMY_GEMINI_KEY post"
    (by decide) (by decide) (by decide) (by decide)

/-- `setUnsignedPayload` does not touch headers other than
`X-Amz-Content-Sha256`. -/
theorem setUnsignedPayload_other (q : Request) (m : String)
    (hm : (pyLower "X-Amz-Content-Sha256" == pyLower m) = false) :
    headerGet (setUnsignedPayload q).headers m = headerGet q.headers m := by
  unfold setUnsignedPayload
  split
  · exact headerGet_headerSet_ne q.headers "X-Amz-Content-Sha256" "UNSIGNED-PAYLOAD" m hm
  · rfl

/-- Over the 1 MiB threshold, `setUnsignedPayload` writes the header. -/
theorem setUnsignedPayload_big (q : Request) (h : q.body.length > 1024 * 1024) :
    headerGet (setUnsignedPayload q).headers "X-Amz-Content-Sha256" =
      some "UNSIGNED-PAYLOAD" := by
  unfold setUnsignedPayload
  rw [if_pos h]
  exact headerGet_headerSet q.headers "X-Amz-Content-Sha256" "UNSIGNED-PAYLOAD"

/-- At or below the threshold, `setUnsignedPayload` is the identity. -/
theorem setUnsignedPayload_small (q : Request) (h : ¬q.body.length > 1024 * 1024) :
    setUnsignedPayload q = q := by
  unfold setUnsignedPayload
  rw [if_neg h]

/-- Claim C7: the pre-signing rewrite of `AWSSigV4Strategy.inject`
removes `Authorization`, `X-Amz-Date`, `X-Amz-Security-Token` and
`X-Amz-Signature` before the fresh signature is computed, and — provided
the incoming request does not already carry one — an
`X-Amz-Content-Sha256: UNSIGNED-PAYLOAD` header is present afterwards
exactly when the derived service is `s3`, the method is PUT or POST, and
the body exceeds 1 MiB (1024 * 1024 bytes, strictly). -/
theorem C7_aws_sanitize_unsigned_payload (service : String) (r : Request)
    (hsha : headerGet r.headers "X-Amz-Content-Sha256" = none) :
    headerGet (awsPreSign service r).headers "Authorization" = none ∧
    headerGet (awsPreSign service r).headers "X-Amz-Date" = none ∧
    headerGet (awsPreSign service r).headers "X-Amz-Security-Token" = none ∧
    headerGet (awsPreSign service r).headers "X-Amz-Signature" = none ∧
    (headerGet (awsPreSign service r).headers "X-Amz-Content-Sha256" =
        some "UNSIGNED-PAYLOAD" ↔
      (service = "s3" ∧ (r.method = "PUT" ∨ r.method = "POST") ∧
        r.body.length > 1024 * 1024)) := by
  have dAuth : headerGet (sanitizeAwsHeaders r).headers "Authorization" = none := by
    show headerGet (headerDel (headerDel (headerDel (headerDel r.headers
      "Authorization") "X-Amz-Date") "X-Amz-Security-Token") "X-Amz-Signature")
      "Authorization" = none
    rw [headerGet_headerDel_ne _ _ _ (by decide), headerGet_headerDel_ne _ _ _ (by decide),
      headerGet_headerDel_ne _ _ _ (by decide)]
    exact headerGet_headerDel_self _ _
  have dDate : headerGet (sanitizeAwsHeaders r).headers "X-Amz-Date" = none := by
    show headerGet (headerDel (headerDel (headerDel (headerDel r.headers
      "Authorization") "X-Amz-Date") "X-Amz-Security-Token") "X-Amz-Signature")
      "X-Amz-Date" = none
    rw [headerGet_headerDel_ne _ _ _ (by decide), headerGet_headerDel_ne _ _ _ (by decide),
      headerGet_headerDel_self]
  have dTok : headerGet (sanitizeAwsHeaders r).headers "X-Amz-Security-Token" = none := by
    show headerGet (headerDel (headerDel (headerDel (headerDel r.headers
      "Authorization") "X-Amz-Date") "X-Amz-Security-Token") "X-Amz-Signature")
      "X-Amz-Security-Token" = none
    rw [headerGet_headerDel_ne _ _ _ (by decide), headerGet_headerDel_self]
  have dSig : headerGet (sanitizeAwsHeaders r).headers "X-Amz-Signature" = none := by
    show headerGet (headerDel (headerDel (headerDel (headerDel r.headers
      "Authorization") "X-Amz-Date") "X-Amz-Security-Token") "X-Amz-Signature")
      "X-Amz-Signature" = none
    exact headerGet_headerDel_self _ _
  have dSha : headerGet (sanitizeAwsHeaders r).headers "X-Amz-Content-Sha256" = none := by
    show headerGet (headerDel (headerDel (headerDel (headerDel r.headers
      "Authorization") "X-Amz-Date") "X-Amz-Security-Token") "X-Amz-Signature")
      "X-Amz-Content-Sha256" = none
    rw [headerGet_headerDel_ne _ _ _ (by decide), headerGet_headerDel_ne _ _ _ (by decide),
      headerGet_headerDel_ne _ _ _ (by decide), headerGet_headerDel_ne _ _ _ (by decide)]
    exact hsha
  unfold awsPreSign
  dsimp only
  by_cases hc : (service == "s3" && (r.method == "PUT" || r.method == "POST")) = true
  · rw [if_pos hc]
    rw [Bool.and_eq_true, Bool.or_eq_true] at hc
    have hsvc : service = "s3" := eq_of_beq hc.1
    have hmeth : r.method = "PUT" ∨ r.method = "POST" := by
      rcases hc.2 with h | h
      · exact Or.inl (eq_of_beq h)
      · exact Or.inr (eq_of_beq h)
    refine ⟨?_, ?_, ?_, ?_, ?_⟩
    · rw [setUnsignedPayload_other _ _ (by decide)]; exact dAuth
    · rw [setUnsignedPayload_other _ _ (by decide)]; exact dDate
    · rw [setUnsignedPayload_other _ _ (by decide)]; exact dTok
    · rw [setUnsignedPayload_other _ _ (by decide)]; exact dSig
    · by_cases hb : (sanitizeAwsHeaders r).body.length > 1024 * 1024
      · rw [setUnsignedPayload_big _ hb]
        exact ⟨fun _ => ⟨hsvc, hmeth, hb⟩, fun _ => rfl⟩
      · rw [setUnsignedPayload_small _ hb, dSha]
        constructor
        · intro hcontra
          cases hcontra
        · rintro ⟨_, _, hbig⟩
          exact absurd hbig hb
  · rw [if_neg hc]
    refine ⟨dAuth, dDate, dTok, dSig, ?_⟩
    rw [dSha]
    constructor
    · intro hcontra
      cases hcontra
    · rintro ⟨h1, h2, _⟩
      refine absurd ?_ hc
      rw [Bool.and_eq_true, Bool.or_eq_true]
      refine ⟨by rw [h1]; decide, ?_⟩
      rcases h2 with h2 | h2
      · exact Or.inl (by rw [h2]; decide)
      · exact Or.inr (by rw [h2]; decide)

/-- Claim C7 witness: an S3 PUT whose body is one byte over 1 MiB gets
the unsigned-payload header, with the AWS-sensitive headers gone. -/
theorem C7_aws_sanitize_unsigned_payload_witness :
    headerGet (awsPreSign "s3" bigReq).headers "Authorization" = none ∧
    headerGet (awsPreSign "s3" bigReq).headers "X-Amz-Content-Sha256" =
      some "UNSIGNED-PAYLOAD" := by
  have h := C7_aws_sanitize_unsigned_payload "s3" bigReq (by decide)
  have hlen : bigReq.body.length = 1024 * 1024 + 1 :=
    List.length_replicate (1024 * 1024 + 1) 'a'
  refine ⟨h.1, h.2.2.2.2.mpr ⟨rfl, Or.inl rfl, ?_⟩⟩
  rw [hlen]
  omega

/-- `StatsLe` is reflexive. -/
theorem statsLe_refl (s : Stats) : StatsLe s s :=
  ⟨le_refl _, le_refl _, le_refl _, rfl⟩

/-- `StatsLe` composes. -/
theorem statsLe_trans {s t u : Stats} (h1 : StatsLe s t) (h2 : StatsLe t u) :
    StatsLe s u :=
  ⟨le_trans h1.1 h2.1, le_trans h1.2.1 h2.2.1, le_trans h1.2.2.1 h2.2.2.1,
    h1.2.2.2.trans h2.2.2.2⟩

/-- The header-location loop only ever increments `credentials_injected`
or `requests_blocked`, and never touches the other two counters. -/
theorem injectHeadersLoop_statsLe (env : String → Option String)
    (cred : CredentialConfig) :
    ∀ (locs : List HeaderLoc) (flow : Flow) (stats : Stats),
      StatsLe stats (injectHeadersLoop env cred locs flow stats).2.1 := by
  intro locs
  induction locs with
  | nil => intro flow stats; exact statsLe_refl _
  | cons loc rest ih =>
    intro flow stats
    unfold injectHeadersLoop
    cases hg : headerGet flow.request.headers loc.name with
    | none => exact ih flow stats
    | some hv =>
      dsimp only
      split
      · exact ih flow stats
      · split
        · exact ⟨le_refl _, Nat.le_succ _, le_refl _, rfl⟩
        · split
          · exact statsLe_refl _
          · exact ⟨Nat.le_succ _, le_refl _, le_refl _, rfl⟩

/-- Same bound for the query-parameter loop. -/
theorem injectQueryLoop_statsLe (env : String → Option String)
    (cred : CredentialConfig) :
    ∀ (names : List String) (flow : Flow) (stats : Stats),
      StatsLe stats (injectQueryLoop env cred names flow stats).2.1 := by
  intro names
  induction names with
  | nil => intro flow stats; exact statsLe_refl _
  | cons param rest ih =>
    intro flow stats
    unfold injectQueryLoop
    cases hg : queryGet flow.request.query param with
    | none => exact ih flow stats
    | some pv =>
      dsimp only
      split
      · exact ih flow stats
      · split
        · exact ⟨le_refl _, Nat.le_succ _, le_refl _, rfl⟩
        · split
          · exact statsLe_refl _
          · exact ⟨Nat.le_succ _, le_refl _, le_refl _, rfl⟩

/-- Lift to the query-injection entry point. -/
theorem injectQueryParams_statsLe (env : String → Option String)
    (cred : CredentialConfig) (flow : Flow) (stats : Stats) :
    StatsLe stats (injectCredentialInQueryParams env cred flow stats).2.1 := by
  unfold injectCredentialInQueryParams
  split
  · exact statsLe_refl _
  · exact injectQueryLoop_statsLe env cred cred.query_param_names flow stats

/-- Lift to the header pass of the dispatcher. -/
theorem headersPass_statsLe (env : String → Option String) :
    ∀ (creds : List CredentialConfig) (flow : Flow) (stats : Stats),
      StatsLe stats (headersPass env creds flow stats).2.1 := by
  intro creds
  induction creds with
  | nil => intro flow stats; exact statsLe_refl _
  | cons c rest ih =>
    intro flow stats
    unfold headersPass
    dsimp only
    split
    · exact injectHeadersLoop_statsLe env c c.header_locations flow stats
    · exact statsLe_trans
        (injectHeadersLoop_statsLe env c c.header_locations flow stats) (ih _ _)

/-- Lift to the query pass of the dispatcher. -/
theorem queryPass_statsLe (env : String → Option String) :
    ∀ (creds : List CredentialConfig) (flow : Flow) (stats : Stats),
      StatsLe stats (queryPass env creds flow stats).2.1 := by
  intro creds
  induction creds with
  | nil => intro flow stats; exact statsLe_refl _
  | cons c rest ih =>
    intro flow stats
    unfold queryPass
    dsimp only
    split
    · exact injectQueryParams_statsLe env c flow stats
    · exact statsLe_trans (injectQueryParams_statsLe env c flow stats) (ih _ _)

/-- Claim C9 counterexample: one dispatched request is counted both as
blocked and as injected — starting from all-zero counters,
`credentials_injected + requests_blocked + telemetry_blocked = 2` after a
single invocation while `requests_processed = 1`, so the accounting
identity cannot hold (and the v1 stats dictionary has no `strategyErrors`
counter at all). -/
theorem C9_accounting_identity_counterexample :
    (requestHandler envAB injAB flowAB).1.stats.requests_processed = 1 ∧
    (requestHandler envAB injAB flowAB).1.stats.credentials_injected +
      (requestHandler envAB injAB flowAB).1.stats.requests_blocked +
      (requestHandler envAB injAB flowAB).1.stats.telemetry_blocked = 2 := by
  decide

/-- Claim C9 (amended): the four counters that exist —
`requests_processed`, `credentials_injected`, `requests_blocked`,
`telemetry_blocked` — are monotonically non-decreasing across a
dispatcher invocation, and `requests_processed` counts exactly the
dispatcher invocations; there is no `strategyErrors` counter, and the
accounting identity fails because a blocked credential does not stop the
dispatch loop. -/
theorem C9_counters_monotone_amended (env : String → Option String)
    (inj : Injector) (flow : Flow) :
    (requestHandler env inj flow).1.stats.requests_processed =
      inj.stats.requests_processed + 1 ∧
    inj.stats.credentials_injected ≤
      (requestHandler env inj flow).1.stats.credentials_injected ∧
    inj.stats.requests_blocked ≤
      (requestHandler env inj flow).1.stats.requests_blocked ∧
    inj.stats.telemetry_blocked ≤
      (requestHandler env inj flow).1.stats.telemetry_blocked := by
  unfold requestHandler
  dsimp only
  split
  · exact ⟨rfl, le_refl _, le_refl _, Nat.le_succ _⟩
  · split
    · have h1 := headersPass_statsLe env inj.credentials flow
        { inj.stats with requests_processed := inj.stats.requests_processed + 1 }
      exact ⟨h1.2.2.2.symm, h1.1, h1.2.1, h1.2.2.1⟩
    · have h1 := headersPass_statsLe env inj.credentials flow
        { inj.stats with requests_processed := inj.stats.requests_processed + 1 }
      have h2 := queryPass_statsLe env inj.credentials
        (headersPass env inj.credentials flow
          { inj.stats with requests_processed := inj.stats.requests_processed + 1 }).1
        (headersPass env inj.credentials flow
          { inj.stats with requests_processed := inj.stats.requests_processed + 1 }).2.1
      have ht := statsLe_trans h1 h2
      exact ⟨ht.2.2.2.symm, ht.1, ht.2.1, ht.2.2.1⟩

/-- Claim C10: once the host passes `validate_host`,
`BearerStrategy.inject` succeeds and overwrites the whole `Authorization`
header with `Bearer <real token>` for every flow — it never re-checks the
`detect` condition, so this happens even when no dummy is present. -/
theorem C10_bearer_unconditional_overwrite (s : BearerStrategy) (flow : Flow)
    (h : validate_host flow.request.host s.allowedHosts = true) :
    (bearerInject s flow).2 = .ok ∧
    headerGet (bearerInject s flow).1.request.headers "Authorization" =
      some ("Bearer " ++ s.token) := by
  have hs := headerGet_headerSet flow.request.headers "Authorization" ("Bearer " ++ s.token)
  exact ⟨by simp [bearerInject, h], by simpa [bearerInject, h] using hs⟩

/-- Claim C10 witness: a flow with no dummy credential at all (its
`detect` is false) still gets the real bearer token written. -/
theorem C10_bearer_unconditional_overwrite_witness :
    bearerDetect bearS cleanFlow = false ∧
    headerGet (bearerInject bearS cleanFlow).1.request.headers "Authorization" =
      some "Bearer realtok" := by
  have h := C10_bearer_unconditional_overwrite bearS cleanFlow (by decide)
  refine ⟨by decide, ?_⟩
  rw [h.2]
  decide

end Cloak
